import Mathlib

/-!
Verification development for the NJ restaurant market-gap engine
(batch gap analysis `generate_gap_analysis.py` and the query pipeline
of `backend/main.py`).

The Python code is shallowly embedded: Python floats are modelled as
rationals (`ℚ`), Python ints as `ℕ`/`ℤ`, dicts as association lists,
and Python string operations (`lower`, `strip`, `replace`, substring
tests, `join`, `split`)
are reimplemented over `List Char` so that they evaluate inside Lean.
Transcendental operations (`math.log10`, the md5-based jitter, the
external survival model) are passed in as abstract parameters; the
trigonometric haversine distance is modelled over `ℝ`.
-/

namespace Datathon

/- ── Python string primitives, modelled over `List Char` ─────────────── -/

/-- Python `str.lower()` (ASCII case folding, which covers all strings
appearing in the data and configuration tables). -/
def lowerS (s : String) : String := ⟨s.data.map Char.toLower⟩

/-- Is the first list a prefix of the second (used for the substring test)? -/
def isPrefixL : List Char → List Char → Bool
  | [], _ => true
  | _ :: _, [] => false
  | a :: as, b :: bs => a == b && isPrefixL as bs

/-- Does `needle` occur inside `hay`? Models the Python `in` operator on
strings. -/
def containsSub (hay needle : List Char) : Bool :=
  match hay with
  | [] => needle.isEmpty
  | _ :: rest => isPrefixL needle hay || containsSub rest needle

/-- Python `needle in hay` for strings. -/
def strContains (hay needle : String) : Bool := containsSub hay.data needle.data

/-- Python `str.strip()`. -/
def trimS (s : String) : String :=
  ⟨((s.data.dropWhile Char.isWhitespace).reverse.dropWhile Char.isWhitespace).reverse⟩

/-- One fuel-indexed pass of Python `str.replace(pat, repl)`; the fuel is the
length of the scanned list, which bounds the number of steps. -/
def replaceFuel (pat repl : List Char) : ℕ → List Char → List Char
  | 0, s => s
  | _ + 1, [] => []
  | n + 1, c :: rest =>
    if isPrefixL pat (c :: rest) && !pat.isEmpty then
      repl ++ replaceFuel pat repl n (List.drop (pat.length - 1) rest)
    else
      c :: replaceFuel pat repl n rest

/-- Python `s.replace(pat, repl)` (for the non-empty patterns used by the
code). -/
def replaceS (s pat repl : String) : String :=
  ⟨replaceFuel pat.data repl.data s.data.length s.data⟩

/-- Python `sep.join(l)`. -/
def joinSep (sep : String) : List String → String
  | [] => ""
  | [x] => x
  | x :: xs => x ++ sep ++ joinSep sep xs

/-- Python `s.split(sep)` for a single-character separator (only `","` is
used by the code). -/
def splitChar (sep : Char) (s : String) : List String :=
  (s.data.splitOn sep).map (fun l => ⟨l⟩)

/- ── Python `round(x, n)`, modelled over `ℚ` ─────────────────────────── -/

/-- Python `round(x, 1)` modelled over `ℚ` (round to nearest; the
floating-point tie-breaking of CPython is immaterial at the spec level). -/
def round1 (q : ℚ) : ℚ := (round (q * 10) : ℚ) / 10

/-- Python `round(x, 2)` modelled over `ℚ`. -/
def round2 (q : ℚ) : ℚ := (round (q * 100) : ℚ) / 100

/-- Python `round(x, 3)` modelled over `ℚ`. -/
def round3 (q : ℚ) : ℚ := (round (q * 1000) : ℚ) / 1000

/-- Python `round(x, 4)` modelled over `ℚ`. -/
def round4 (q : ℚ) : ℚ := (round (q * 10000) : ℚ) / 10000

/- ── Input data model (one business record of the snapshot) ──────────── -/

/-- One business record of the input snapshot
(`yelp_nj_restaurants.json`).  `stars = 0` models a missing/falsy stars
value and `is_open = 1` an open business, matching the truthiness tests
of the Python code.  The attribute map is an association list of
string-valued Yelp attributes. -/
structure Restaurant where
  name : String := ""
  categories : String := ""
  stars : ℚ := 0
  review_count : ℕ := 0
  is_open : ℕ := 0
  attributes : List (String × String) := []
  city : String := ""
deriving DecidableEq

/- ── Batch configuration (generate_gap_analysis.py) ──────────────────── -/

def MIN_ZIP_RESTAURANTS : ℕ := 3

def TOP_CUISINE_GAPS : ℕ := 10

def MIN_NEIGHBOR_DEMAND : ℕ := 2

def GAP_SCORE_MIN : ℚ := 1

def CUISINE_KEYWORDS : List String :=
  ["American", "Italian", "Chinese", "Japanese", "Mexican", "Thai",
   "Indian", "Korean", "Mediterranean", "Greek", "Vietnamese", "French",
   "Spanish", "Middle Eastern", "Pizza", "Burgers", "Seafood", "Sushi",
   "Barbecue", "Sandwiches", "Breakfast", "Desserts", "Vegan", "Halal",
   "Caribbean", "Soul Food", "Turkish", "Peruvian", "Brazilian", "Ethiopian",
   "Taiwanese", "Filipino"]

/-- `ATTRIBUTE_MAP`: display name → Yelp attribute keys to check. -/
def ATTRIBUTE_MAP : List (String × List String) :=
  [("BYOB",            ["BYOB", "BYOBCorkage"]),
   ("Delivery",        ["RestaurantsDelivery"]),
   ("Outdoor Seating", ["OutdoorSeating"]),
   ("Kid-Friendly",    ["GoodForKids"]),
   ("Late Night",      ["HappyHour"]),
   ("Free WiFi",       ["WiFi"]),
   ("Reservations",    ["RestaurantsReservations"])]

/- ── Cuisine extraction and counting ─────────────────────────────────── -/

/-- `get_cuisines`: all cuisine keywords occurring (case-insensitively) in a
categories string; an empty (falsy) categories string yields nothing. -/
def get_cuisines (categories : String) : List String :=
  if categories = "" then []
  else
    CUISINE_KEYWORDS.filter (fun c => strContains (lowerS categories) (lowerS c))

/-- The per-area cuisine count of `build_gap_analysis`: every business of
the area (open or closed) contributes one to each cuisine keyword matched
by its categories string. -/
def cuisineCount (rs : List Restaurant) (c : String) : ℕ :=
  rs.countP (fun r => (get_cuisines r.categories).contains c)

/- ── Cuisine gap entries (build_gap_analysis, cuisine part) ──────────── -/

/-- One entry of `top_cuisine_gaps` as produced by the batch tool and read
back by the backend. -/
structure CuisineGap where
  cuisine : String := ""
  gap_score : ℚ := 0
  local_count : ℕ := 0
  neighbor_demand : ℕ := 0
  local_avg_stars : ℚ := 0
deriving DecidableEq

/-- Stars of the area's businesses serving cuisine `c`, keeping only truthy
stars values, in snapshot order (the `local_cuisine_stars` lists). -/
def localStars (rs : List Restaurant) (c : String) : List ℚ :=
  (rs.filter
    (fun r => (get_cuisines r.categories).contains c && !(r.stars == 0))).map
    (·.stars)

/-- Python `round(sum(ls)/len(ls), 3) if ls else 0.0`. -/
def avgStars3 (ls : List ℚ) : ℚ :=
  if ls = [] then 0 else round3 (ls.sum / ls.length)

/-- Total neighbor demand for cuisine `c`: the sum of the neighbor areas'
cuisine counts. -/
def neighborDemand (nbrs : List (List Restaurant)) (c : String) : ℕ :=
  (nbrs.map (fun ns => cuisineCount ns c)).sum

/-- The gap-entry builder of `build_gap_analysis`: `none` models the two
`continue` statements (demand below the noise floor, score below the
inclusion minimum). -/
def mkGapEntry (localRs : List Restaurant) (nbrs : List (List Restaurant))
    (c : String) : Option CuisineGap :=
  let nd := neighborDemand nbrs c
  if nd < MIN_NEIGHBOR_DEMAND then none
  else
    let lc := cuisineCount localRs c
    let las := avgStars3 (localStars localRs c)
    let gs := round2 ((nd : ℚ) / ((lc : ℚ) * max las 1 + 1))
    if gs < GAP_SCORE_MIN then none
    else some ⟨c, gs, lc, nd, las⟩

/-- Descending order on gap scores (the `sort(key=lambda x: -x["gap_score"])`
comparison). -/
def gapOrder (a b : CuisineGap) : Prop := b.gap_score ≤ a.gap_score

instance : DecidableRel gapOrder :=
  fun a b => inferInstanceAs (Decidable (b.gap_score ≤ a.gap_score))

instance : IsTotal CuisineGap gapOrder := ⟨fun a b => le_total b.gap_score a.gap_score⟩

instance : IsTrans CuisineGap gapOrder := ⟨fun _ _ _ h1 h2 => le_trans h2 h1⟩

/-- The `top_cuisine_gaps` list of one area: every cuisine of the
local-or-neighbor union is considered, entries surviving the two filters
are sorted descending by gap score, and the list is truncated to the top
`TOP_CUISINE_GAPS`. -/
def cuisineGaps (localRs : List Restaurant) (nbrs : List (List Restaurant)) :
    List CuisineGap :=
  let allCuisines := CUISINE_KEYWORDS.filter
    (fun c => cuisineCount localRs c != 0 || neighborDemand nbrs c != 0)
  (List.insertionSort gapOrder
    (allCuisines.filterMap (mkGapEntry localRs nbrs))).take TOP_CUISINE_GAPS

/- ── Attribute gap entries (build_gap_analysis, attribute part) ──────── -/

/-- One entry of `attr_gaps` as produced by the batch tool (the field
`attr` carries the JSON key "attribute", which is a reserved word in
Lean). -/
structure AttrGap where
  attr : String := ""
  local_rate : ℚ := 0
  neighbor_avg : ℚ := 0
  gap : ℚ := 0
deriving DecidableEq

/-- `attr_true`: is any of the given Yelp attribute keys truthy?  Models the
permissive string matching of the Python helper, including the `WiFi` and
`BYOBCorkage` special cases. -/
def attr_true (attrs : List (String × String)) (keys : List String) : Bool :=
  keys.any fun k =>
    match attrs.lookup k with
    | none => false
    | some v =>
      let sv := replaceS (replaceS (trimS (lowerS v)) "u'" "") "'" ""
      ["true", "1", "yes", "free", "paid"].contains sv ||
        (k == "WiFi" && !(["no", "none", ""].contains sv)) ||
        (k == "BYOBCorkage" && !(["no", "none", ""].contains sv))

/-- `attr_rate`: fraction of the area's businesses (open or closed) whose
attribute map is truthy for the attribute's key list. -/
def attrRate (rs : List Restaurant) (keys : List String) : ℚ :=
  if rs = [] then 0
  else (rs.countP (fun r => attr_true r.attributes keys) : ℚ) / rs.length

/-- Descending order on attribute gaps. -/
def attrOrder (a b : AttrGap) : Prop := b.gap ≤ a.gap

instance : DecidableRel attrOrder :=
  fun a b => inferInstanceAs (Decidable (b.gap ≤ a.gap))

instance : IsTotal AttrGap attrOrder := ⟨fun a b => le_total b.gap a.gap⟩

instance : IsTrans AttrGap attrOrder := ⟨fun _ _ _ h1 h2 => le_trans h2 h1⟩

/-- One candidate entry of `attr_gaps`: the local rate is compared with
the rounded average of the neighbor areas' rates, and only a gap above
five percentage points is reported. -/
def attrGapEntry (localRs : List Restaurant) (nbrs : List (List Restaurant))
    (p : String × List String) : Option AttrGap :=
  let localRate := attrRate localRs p.2
  let nbrRates := nbrs.map (fun ns => attrRate ns p.2)
  let nbrAvg := if nbrRates = [] then 0 else round4 (nbrRates.sum / nbrRates.length)
  let gap := round4 (nbrAvg - localRate)
  if gap > 1/20 then some ⟨p.1, round4 localRate, nbrAvg, gap⟩ else none

/-- The `attr_gaps` list of one area: one candidate entry per display
attribute, sorted descending by gap. -/
def attrGaps (localRs : List Restaurant) (nbrs : List (List Restaurant)) :
    List AttrGap :=
  List.insertionSort attrOrder
    (ATTRIBUTE_MAP.filterMap (attrGapEntry localRs nbrs))

/- ── Backend configuration (backend/main.py) ─────────────────────────── -/

/-- `CUISINE_SYNONYMS`: requested cuisine → closely related cuisines whose
gaps count for the requested concept. -/
def CUISINE_SYNONYMS : List (String × List String) :=
  [("pizza",          ["italian"]),
   ("italian",        ["pizza", "mediterranean"]),
   ("japanese",       ["sushi", "korean", "asian"]),
   ("sushi",          ["japanese", "asian"]),
   ("korean",         ["japanese", "asian"]),
   ("chinese",        ["asian", "vietnamese"]),
   ("vietnamese",     ["asian", "chinese", "thai"]),
   ("thai",           ["asian", "vietnamese"]),
   ("asian",          ["japanese", "chinese", "vietnamese", "thai", "korean", "sushi"]),
   ("mediterranean",  ["greek", "middle eastern", "italian"]),
   ("greek",          ["mediterranean", "middle eastern"]),
   ("middle eastern", ["mediterranean", "greek"]),
   ("mexican",        ["spanish", "latin", "caribbean"]),
   ("spanish",        ["mexican", "latin"]),
   ("latin",          ["mexican", "spanish", "caribbean"]),
   ("caribbean",      ["latin", "mexican"]),
   ("american",       ["burgers", "sandwiches", "barbecue"]),
   ("burgers",        ["american", "sandwiches"]),
   ("sandwiches",     ["american", "burgers"]),
   ("barbecue",       ["american"]),
   ("vegan",          ["salad", "breakfast", "mediterranean"]),
   ("seafood",        ["sushi", "japanese"]),
   ("indian",         ["middle eastern", "mediterranean"])]

/-- The accepted-cuisine family of a query: the lowered requested cuisine
together with the lowered synonyms from `CUISINE_SYNONYMS`. -/
def cuisineFamily (cu : String) : List String :=
  lowerS cu :: ((CUISINE_SYNONYMS.lookup (lowerS cu)).getD []).map lowerS

/-- `risk_label`: closure rate bucketed into low / medium / high. -/
def risk_label (closure_rate : ℚ) : String :=
  if closure_rate < 1/5 then "low"
  else if closure_rate < 7/20 then "medium"
  else "high"

/- ── Query-time data model ───────────────────────────────────────────── -/

/-- The per-area record of `gap_analysis.json` as consumed by
`/recommendations` (fields not read by the embedded pipeline are
omitted). -/
structure ZipProfile where
  zip : String := ""
  city : String := ""
  total_reviews : ℕ := 0
  closure_rate : ℚ := 0
  avg_price : ℚ := 2
  top_cuisine_gaps : List CuisineGap := []
  attr_gaps : List AttrGap := []
deriving DecidableEq

/-- The query parameters of `/recommendations`. -/
structure Query where
  cuisine : Option String := none
  risk_levels : Option String := none
  max_price_tier : Option ℚ := none
  byob : Bool := false
  delivery : Bool := false
  outdoor : Bool := false
  kid_friendly : Bool := false
  min_market_size : ℕ := 0
  limit : ℕ := 10

/-- External capabilities consumed by the scoring pipeline: `math.log10`
(transcendental), the md5-derived deterministic jitter, and the optional
survival-model probability per area (`none` models an absent model, an
absent cuisine feature vector, or a caught exception).  `sortedGaps` is the
precomputed `_all_top_gaps_sorted` percentile table. -/
structure Externals where
  log10f : ℚ → ℚ := fun _ => 0
  jitterf : String → ℚ := fun _ => 0
  survivalProb : String → Option ℚ := fun _ => none
  sortedGaps : List ℚ := []

/-- The query-scoped candidate annotations produced for one area (response
fields not touched by the claims, such as the evidence block, are
omitted). -/
structure Candidate where
  zip : String := ""
  city : String := ""
  score : ℚ := 0
  isExact : Bool := true
  issues : List String := []
  topGap : ℚ := 0
deriving DecidableEq

/-- Accumulator for the soft filters: exactness flag, match issues, and the
cumulative penalty. -/
structure FilterAcc where
  isExact : Bool := true
  issues : List String := []
  penalty : ℚ := 0
deriving DecidableEq

/-- The service attributes required by the query, in the order the endpoint
builds them.  Note the raw keys used here: `HasTV` (as a delivery proxy),
`OutdoorSeating` and `GoodForKids`. -/
def requiredAttrs (q : Query) : List String :=
  (if q.byob then ["BYOB"] else []) ++
  (if q.delivery then ["HasTV"] else []) ++
  (if q.outdoor then ["OutdoorSeating"] else []) ++
  (if q.kid_friendly then ["GoodForKids"] else [])

/-- Parsed accepted risk labels: split on commas, stripped and lowered. -/
def parseRisks (s : String) : List String :=
  (splitChar ',' s).map (fun r => lowerS (trimS r))

/-- The requested cuisine as tested by Python truthiness: an absent or
empty cuisine string counts as no cuisine. -/
def queryCuisine (q : Query) : Option String :=
  match q.cuisine with
  | none => none
  | some cu => if cu = "" then none else some cu

/-- The price filter with tolerance buffer (the interpolated numbers of the
first issue string are elided; no claim depends on them). -/
def priceStep (q : Query) (z : ZipProfile) (acc : FilterAcc) : FilterAcc :=
  match q.max_price_tier with
  | none => acc
  | some m =>
    if m = 0 then acc
    else if z.avg_price > m then
      if z.avg_price - m ≤ 1/2 then
        { acc with
          penalty := acc.penalty - 5
          issues := acc.issues ++ ["Slightly above price target"] }
      else
        { isExact := false
          penalty := acc.penalty - 15
          issues := acc.issues ++ ["Average price tier is higher than expected"] }
    else acc

/-- Number of the area's businesses whose lowered categories contain some
member of the cuisine family (the `local_cuisine_count` /
`local_count` computation of the endpoint). -/
def localFamilyCount (biz : List Restaurant) (family : List String) : ℕ :=
  biz.countP (fun r => family.any (fun c => strContains (lowerS r.categories) c))

/-- The required-attribute check of the endpoint: requested attributes are
matched against the names in the area's `attr_gaps`, with the
low-confidence and majority relaxations. -/
def attrStep (q : Query) (z : ZipProfile) (biz : List Restaurant)
    (acc : FilterAcc) : FilterAcc :=
  let required := requiredAttrs q
  let present := z.attr_gaps.map (·.attr)
  let missing := required.filter (fun a => !(present.contains a))
  if missing = [] then acc
  else
    let fulfilled := required.length - missing.length
    let lowConfidence :=
      match queryCuisine q with
      | none => false
      | some cu => localFamilyCount biz (cuisineFamily cu) < 3
    if lowConfidence then
      { acc with
        penalty := acc.penalty - 2 * missing.length
        issues := acc.issues ++
          ["Unconfirmed gaps due to low local sample size (" ++
            toString (localFamilyCount biz (cuisineFamily ((queryCuisine q).getD ""))) ++
            " " ++ (queryCuisine q).getD "" ++ " places): " ++ joinSep ", " missing] }
    else if 2 * fulfilled ≥ required.length ∧ required.length ≥ 2 then
      { acc with
        penalty := acc.penalty - 5 * missing.length
        issues := acc.issues ++
          ["Most requested service gaps present; missing: " ++ joinSep ", " missing] }
    else
      { isExact := false
        penalty := acc.penalty - 8 * missing.length
        issues := acc.issues ++
          ["Missing validated service gaps: " ++ joinSep ", " missing] }

/-- The ad-hoc gap proxy of the third cuisine-matching tier: the area's top
neighbor-demand figure minus the local family count, floored at zero. -/
def adHocProxy (z : ZipProfile) (biz : List Restaurant) (cu : String) : ℤ :=
  max 0 ((((z.top_cuisine_gaps.head?.map (·.neighbor_demand)).getD 0 : ℕ) : ℤ) -
    (localFamilyCount biz (cuisineFamily cu) : ℤ))

/-- The three cuisine-matching tiers: exact name match, synonym-family
match (annotated), and the ad-hoc proxy.  Returns the updated accumulator
and the gap score used for scoring. -/
def cuisineStep (q : Query) (z : ZipProfile) (biz : List Restaurant)
    (acc : FilterAcc) : FilterAcc × ℚ :=
  match queryCuisine q with
  | none => (acc, ((z.top_cuisine_gaps.head?.map (·.gap_score)).getD 0))
  | some cu =>
    let exactMatches := z.top_cuisine_gaps.filter
      (fun g => lowerS g.cuisine == lowerS cu)
    match exactMatches.head? with
    | some g => (acc, g.gap_score)
    | none =>
      let synMatches := z.top_cuisine_gaps.filter
        (fun g => (cuisineFamily cu).contains (lowerS g.cuisine))
      match synMatches.head? with
      | some g =>
        ({ acc with
           issues := acc.issues ++ ["Matched via related cuisine: " ++ g.cuisine] },
          g.gap_score)
      | none =>
        if adHocProxy z biz cu > 0 then
          ({ isExact := false
             penalty := acc.penalty - 8
             issues := acc.issues ++ ["Cuisine gap exists but not among strongest in this area"] },
            (adHocProxy z biz cu : ℚ))
        else
          ({ isExact := false
             penalty := acc.penalty - 12
             issues := acc.issues ++ ["No measurable cuisine gap detected in this area"] },
            0)

/-- The tiered survival bonus (0 / +8 / +15) from the model probability. -/
def survivalBonusOf : Option ℚ → ℚ
  | none => 0
  | some p => if p > 13/20 then 15 else if p > 1/2 then 8 else 0

/-- The final clamp of the master score: `min 99` before jitter, rounding
to one decimal, then clamping into `[0.1, 99.9]`. -/
def blendScore (base jitter : ℚ) : ℚ :=
  max (1/10) (min (999/10) (round1 (min 99 base + jitter)))

/-- The percentile rank of a gap score against the precomputed sorted list
(`bisect.bisect_right` on a sorted list counts the elements `≤ x`; an empty
table is modelled as rank 0, a case unreachable for the shipped non-empty
snapshot where Python would raise). -/
def gapPercentile (sortedGaps : List ℚ) (x : ℚ) : ℚ :=
  if sortedGaps.length = 0 then 0
  else (sortedGaps.countP (fun g => g ≤ x) : ℚ) / sortedGaps.length

/-- The full per-area scoring of `/recommendations` after the hard filters:
soft filters, three-tier cuisine matching, the blended master score, and
the small-penalty reclassification back to an exact match. -/
def buildCandidate (ext : Externals) (q : Query) (z : ZipProfile)
    (biz : List Restaurant) : Candidate :=
  let acc1 := priceStep q z { }
  let acc2 := attrStep q z biz acc1
  let step3 := cuisineStep q z biz acc2
  let acc3 := step3.1
  let topGap := step3.2
  let gapContribution := gapPercentile ext.sortedGaps topGap * 50
  let marketScore := ext.log10f ((z.total_reviews : ℚ) + 1) * 4
  let stabilityScore := (1 - z.closure_rate) * 8
  let weakspotPenalty : ℚ :=
    if z.closure_rate > 3/10 then -25 else if z.closure_rate > 1/5 then -10 else 0
  let survivalBonus :=
    match queryCuisine q with
    | some _ => survivalBonusOf (ext.survivalProb z.zip)
    | none => 0
  let attrBonus := (z.attr_gaps.length : ℚ) * (3/2)
  let baseMaster := gapContribution + marketScore + stabilityScore +
    weakspotPenalty + survivalBonus + attrBonus + acc3.penalty
  { zip := z.zip
    city := z.city
    score := blendScore baseMaster (ext.jitterf z.zip)
    isExact := if acc3.penalty < 0 ∧ acc3.penalty ≥ -10 then true else acc3.isExact
    issues := acc3.issues
    topGap := topGap }

/-- The two hard filters that `continue` past an area: the market-size
floor, and the accepted-risk filter (an empty `risk_levels` string is falsy
in Python and skips the risk check). -/
def hardFiltersPass (q : Query) (z : ZipProfile) : Bool :=
  !(z.total_reviews < q.min_market_size) &&
    (match q.risk_levels with
     | none => true
     | some rl =>
       rl == "" || (parseRisks rl).contains (risk_label z.closure_rate))

/-- The per-area body of the `/recommendations` loop: `none` models the two
`continue` statements, otherwise the area is scored. -/
def processZip (ext : Externals) (q : Query) (z : ZipProfile)
    (biz : List Restaurant) : Option Candidate :=
  if z.total_reviews < q.min_market_size then none
  else
    match q.risk_levels with
    | none => some (buildCandidate ext q z biz)
    | some rl =>
      if rl = "" then some (buildCandidate ext q z biz)
      else if (parseRisks rl).contains (risk_label z.closure_rate) then
        some (buildCandidate ext q z biz)
      else none

/- ── Diversifier: city grouping output, MMR selection, county caps ───── -/

/-- `ZIP_COUNTY`: county of every dataset zip code. -/
def ZIP_COUNTY : List (String × String) :=
  [("08002", "Camden"), ("08003", "Camden"), ("08007", "Camden"), ("08012", "Camden"),
   ("08021", "Camden"), ("08026", "Camden"), ("08029", "Camden"), ("08031", "Camden"),
   ("08033", "Camden"), ("08034", "Camden"), ("08035", "Camden"), ("08045", "Camden"),
   ("08049", "Camden"), ("08052", "Camden"), ("08059", "Camden"), ("08078", "Camden"),
   ("08081", "Camden"), ("08083", "Camden"), ("08084", "Camden"), ("08091", "Camden"),
   ("08102", "Camden"), ("08103", "Camden"), ("08104", "Camden"), ("08105", "Camden"),
   ("08106", "Camden"), ("08107", "Camden"), ("08108", "Camden"),
   ("08010", "Burlington"), ("08016", "Burlington"), ("08022", "Burlington"),
   ("08036", "Burlington"), ("08046", "Burlington"), ("08048", "Burlington"),
   ("08054", "Burlington"), ("08055", "Burlington"), ("08057", "Burlington"),
   ("08060", "Burlington"), ("08065", "Burlington"), ("08068", "Burlington"),
   ("08075", "Burlington"), ("08077", "Burlington"), ("08088", "Burlington"),
   ("08505", "Burlington"), ("08518", "Burlington"), ("08554", "Burlington"),
   ("08004", "Gloucester"), ("08009", "Gloucester"), ("08018", "Gloucester"),
   ("08020", "Gloucester"), ("08027", "Gloucester"), ("08028", "Gloucester"),
   ("08030", "Gloucester"), ("08051", "Gloucester"), ("08062", "Gloucester"),
   ("08063", "Gloucester"), ("08066", "Gloucester"), ("08071", "Gloucester"),
   ("08080", "Gloucester"), ("08085", "Gloucester"), ("08086", "Gloucester"),
   ("08089", "Gloucester"), ("08090", "Gloucester"), ("08093", "Gloucester"),
   ("08094", "Gloucester"), ("08096", "Gloucester"), ("08097", "Gloucester"),
   ("08312", "Gloucester"), ("08322", "Gloucester"),
   ("08069", "Salem"), ("08070", "Salem"), ("08079", "Salem"),
   ("08098", "Salem"), ("08318", "Salem"), ("08328", "Salem"), ("08344", "Salem"),
   ("08530", "Mercer"), ("08608", "Mercer"), ("08609", "Mercer"), ("08610", "Mercer"),
   ("08611", "Mercer"), ("08618", "Mercer"), ("08619", "Mercer"), ("08628", "Mercer"),
   ("08629", "Mercer"), ("08638", "Mercer"), ("08648", "Mercer"),
   ("08109", "Camden"), ("08110", "Camden")]

/-- `ZIP_COUNTY.get(rep, "Unknown")`. -/
def countyOf (zipCode : String) : String := (ZIP_COUNTY.lookup zipCode).getD "Unknown"

/-- `COUNTY_CAPS`: Camden is capped at zero cities, the listed counties at
two. -/
def COUNTY_CAPS : List (String × ℕ) :=
  [("Camden", 0), ("Gloucester", 2), ("Burlington", 2), ("Salem", 2), ("Mercer", 2)]

def DEFAULT_COUNTY_CAP : ℕ := 2

/-- `COUNTY_CAPS.get(county, DEFAULT_COUNTY_CAP)`. -/
def capOf (county : String) : ℕ := (COUNTY_CAPS.lookup county).getD DEFAULT_COUNTY_CAP

/-- One city-level candidate entering the MMR selection (the grouping step
keeps the best-scoring zip of the city as its representative). -/
structure CityCand where
  city : String := ""
  score : ℚ := 0
  repZip : String := ""
deriving DecidableEq

/-- Python `max` over a list of similarities (only applied to non-empty
lists by the caller). -/
def listMax : List ℚ → ℚ
  | [] => 0
  | x :: xs => xs.foldl max x

/-- Maximal similarity of a representative zip to the already selected
ones; `simf` abstracts the `1 / (1 + geoDistance)` similarity, whose
square root is transcendental. -/
def maxSimTo (simf : String → String → ℚ) (selZips : List String)
    (rep : String) : ℚ :=
  match selZips with
  | [] => 0
  | _ :: _ => listMax (selZips.map (fun sz => simf rep sz))

def RELEVANCE_WEIGHT : ℚ := 3/5

def DIVERSITY_WEIGHT : ℚ := 2/5

/-- The marginal-relevance objective of one candidate. -/
def mmrValue (simf : String → String → ℚ) (minScore scoreRange : ℚ)
    (selZips : List String) (c : CityCand) : ℚ :=
  RELEVANCE_WEIGHT * ((c.score - minScore) / scoreRange) -
    DIVERSITY_WEIGHT * maxSimTo simf selZips c.repZip

/-- Is the candidate's county still under its cap? -/
def eligibleCand (counts : String → ℕ) (c : CityCand) : Bool :=
  counts (countyOf c.repZip) < capOf (countyOf c.repZip)

/-- One step of the inner scan of the MMR loop: a capped county is skipped,
otherwise the running best is replaced on strict improvement of `f` (so
ties keep the earlier candidate, as in the Python loop). -/
def scanStep (f : CityCand → ℚ) (elig : CityCand → Bool)
    (acc : Option CityCand) (c : CityCand) : Option CityCand :=
  if elig c then
    match acc with
    | none => some c
    | some b => if f c > f b then some c else some b
  else acc

/-- The inner scan of the MMR loop over all remaining candidates. -/
def scanBest (f : CityCand → ℚ) (elig : CityCand → Bool)
    (l : List CityCand) : Option CityCand :=
  l.foldl (scanStep f elig) none

/-- One selection: the best eligible candidate, or — when every remaining
county is at its cap — the fallback `remaining[0]`. -/
def pickCandidate (f : CityCand → ℚ) (elig : CityCand → Bool)
    (remaining : List CityCand) : Option CityCand :=
  match scanBest f elig remaining with
  | some b => some b
  | none => remaining.head?

/-- Increment the per-county selection count. -/
def bump (counts : String → ℕ) (county : String) : String → ℕ :=
  fun k => if k = county then counts k + 1 else counts k

/-- The greedy MMR loop with county caps.  The fuel is the length of the
remaining list: each iteration removes the picked candidate, so the Python
`while` loop performs at most that many iterations. -/
def mmrLoop (simf : String → String → ℚ) (minScore scoreRange : ℚ)
    (limit : ℕ) :
    ℕ → List CityCand → List CityCand → List String → (String → ℕ) →
      List CityCand
  | 0, _, selected, _, _ => selected
  | n + 1, remaining, selected, selZips, counts =>
    if limit ≤ selected.length then selected
    else
      match pickCandidate (mmrValue simf minScore scoreRange selZips)
          (eligibleCand counts) remaining with
      | none => selected
      | some best =>
        mmrLoop simf minScore scoreRange limit n
          (remaining.erase best) (selected ++ [best])
          (selZips ++ [best.repZip]) (bump counts (countyOf best.repZip))

/-- Descending order on city scores (the final re-sort of the selection). -/
def cityOrder (a b : CityCand) : Prop := b.score ≤ a.score

instance : DecidableRel cityOrder :=
  fun a b => inferInstanceAs (Decidable (b.score ≤ a.score))

instance : IsTotal CityCand cityOrder := ⟨fun a b => le_total b.score a.score⟩

instance : IsTrans CityCand cityOrder := ⟨fun _ _ _ h1 h2 => le_trans h2 h1⟩

/-- The whole Diversifier selection over the (already score-sorted) city
candidates: range normalization, the MMR loop, and the final re-sort by
score. -/
def mmrSelect (simf : String → String → ℚ) (limit : ℕ)
    (cands : List CityCand) : List CityCand :=
  let maxScore := ((cands.head?).map (·.score)).getD 1
  let minScore := ((cands.getLast?).map (·.score)).getD 0
  let scoreRange := max (maxScore - minScore) (1/1000)
  List.insertionSort cityOrder
    (mmrLoop simf minScore scoreRange limit cands.length cands [] [] (fun _ => 0))

/- ── GeoIndex: haversine distance and the neighbor relation ──────────── -/

/-- Python `math.radians`. -/
noncomputable def radians (x : ℝ) : ℝ := x * Real.pi / 180

/-- Python `math.atan2 y x`, as the argument of the complex number
`x + y i`. -/
noncomputable def atan2 (y x : ℝ) : ℝ := Complex.arg ⟨x, y⟩

/-- `haversine_km`: great-circle distance in km between two (lat, lon)
points, Earth radius 6371 km. -/
noncomputable def haversine_km (lat1 lon1 lat2 lon2 : ℝ) : ℝ :=
  let R : ℝ := 6371
  let phi1 := radians lat1
  let phi2 := radians lat2
  let dphi := radians (lat2 - lat1)
  let dlam := radians (lon2 - lon1)
  let a := Real.sin (dphi / 2) ^ 2 +
    Real.cos phi1 * Real.cos phi2 * Real.sin (dlam / 2) ^ 2
  R * 2 * atan2 (Real.sqrt a) (Real.sqrt (1 - a))

/-- The mirrored neighbor-pair list of `build_gap_analysis`: for each
ordered pair `(z1, z2)` with `z1` earlier in the zip list, if the closeness
test succeeds both `(z1, z2)` and `(z2, z1)` are recorded.  The test
`close` abstracts the comparison `haversine_km ... <= NEIGHBOR_RADIUS_KM`
on the centroids, which is not decidable over `ℝ`. -/
def neighborPairs (close : String → String → Bool) : List String → List (String × String)
  | [] => []
  | z1 :: rest =>
    ((rest.filter (fun z2 => close z1 z2)).flatMap (fun z2 => [(z1, z2), (z2, z1)])) ++
      neighborPairs close rest

/-- `neighbors[z]`: the neighbor list of one zip, read off the pair list. -/
def neighborsOf (close : String → String → Bool) (zips : List String)
    (z : String) : List String :=
  (neighborPairs close zips).filterMap
    (fun p => if p.1 = z then some p.2 else none)

/-- `NEIGHBOR_RADIUS_KM = 20`. -/
noncomputable def NEIGHBOR_RADIUS_KM : ℝ := 20

/- ── Concrete example inputs used by witnesses and counterexamples ───── -/

/-- The spec's running example: one local Japanese restaurant rated 3.5. -/
def exLocalJp : List Restaurant :=
  [{ categories := "Japanese", stars := 7/2, is_open := 1 }]

/-- The spec's running example: a neighbor union supplying Japanese 24
times. -/
def exNbrsJp : List (List Restaurant) :=
  [List.replicate 24 { categories := "Japanese", is_open := 1 }]

/-- A neighbor area with two Thai and two Greek restaurants, producing two
tied gap scores. -/
def exNbrTie : List (List Restaurant) :=
  [[{ categories := "Thai", is_open := 1 }, { categories := "Thai", is_open := 1 },
    { categories := "Greek", is_open := 1 }, { categories := "Greek", is_open := 1 }]]

/-- The area of the spec's Sushi example: a "Japanese" gap is listed, no
"Sushi" gap. -/
def exC10Zip : ZipProfile :=
  { zip := "08053", top_cuisine_gaps := [⟨"Japanese", 5, 1, 24, 3⟩] }

/- ── C3: the attribute-key mismatch between query and gap data ───────── -/

/-- One local business with no attribute data. -/
def exC3Local : List Restaurant := [{}]

/-- One neighbor area whose single business offers delivery. -/
def exC3Nbrs : List (List Restaurant) :=
  [[{ attributes := [("RestaurantsDelivery", "True")] }]]

/-- The C3 area profile, carrying the batch tool's attribute-gap list. -/
def exC3Zip : ZipProfile :=
  { zip := "08053", attr_gaps := [⟨"Delivery", 0, 1, 1⟩] }


/-! Theorems about the embedded definitions. -/

theorem contains_get_cuisines (cats : String) (c : String)
    (hc : c ∈ CUISINE_KEYWORDS) :
    (get_cuisines cats).contains c =
      (!(cats == "") && strContains (lowerS cats) (lowerS c)) := by
  by_cases h : cats = ""
  · simp [get_cuisines, h]
  · have h2 : (cats == "") = false := by simp [h]
    rw [get_cuisines, if_neg h, h2, Bool.not_false, Bool.true_and]
    by_cases hs : strContains (lowerS cats) (lowerS c) = true
    · rw [hs]
      exact List.elem_eq_true_of_mem (List.mem_filter.mpr ⟨hc, hs⟩)
    · rw [Bool.eq_false_iff.mpr hs, Bool.eq_false_iff]
      intro hcon
      exact hs (List.mem_filter.mp (List.mem_of_elem_eq_true hcon)).2

/-- Everything known about a member of `top_cuisine_gaps` by construction:
it satisfies the demand floor, the score minimum, and the gap formula over
its own reported fields. -/
theorem mem_cuisineGaps_spec (localRs : List Restaurant)
    (nbrs : List (List Restaurant)) (e : CuisineGap)
    (he : e ∈ cuisineGaps localRs nbrs) :
    MIN_NEIGHBOR_DEMAND ≤ e.neighbor_demand ∧
      GAP_SCORE_MIN ≤ e.gap_score ∧
      e.gap_score =
        round2 ((e.neighbor_demand : ℚ) /
          ((e.local_count : ℚ) * max e.local_avg_stars 1 + 1)) ∧
      e.local_count = cuisineCount localRs e.cuisine ∧
      e.neighbor_demand = neighborDemand nbrs e.cuisine ∧
      e.local_avg_stars = avgStars3 (localStars localRs e.cuisine) := by
  simp only [cuisineGaps] at he
  have h1 := List.mem_of_mem_take he
  have h2 := (List.perm_insertionSort gapOrder _).mem_iff.mp h1
  obtain ⟨c, _, hsome⟩ := List.mem_filterMap.mp h2
  simp only [mkGapEntry] at hsome
  by_cases hnd : neighborDemand nbrs c < MIN_NEIGHBOR_DEMAND
  · rw [if_pos hnd] at hsome
    exact absurd hsome (by simp)
  · rw [if_neg hnd] at hsome
    by_cases hgs : round2 ((neighborDemand nbrs c : ℚ) /
        ((cuisineCount localRs c : ℚ) *
          max (avgStars3 (localStars localRs c)) 1 + 1)) < GAP_SCORE_MIN
    · rw [if_pos hgs] at hsome
      exact absurd hsome (by simp)
    · rw [if_neg hgs] at hsome
      obtain rfl := Option.some_inj.mp hsome
      exact ⟨le_of_not_lt hnd, le_of_not_lt hgs, rfl, rfl, rfl, rfl⟩

/-- Rounding to four decimals of a nonpositive rational is nonpositive. -/
theorem round4_nonpos {q : ℚ} (hq : q ≤ 0) : round4 q ≤ 0 := by
  have h1 : q * 10000 + 1/2 ≤ 1/2 := by nlinarith
  have h2 : round (q * 10000) ≤ 0 := by
    rw [round_eq]
    calc ⌊q * 10000 + 1/2⌋ ≤ ⌊(1:ℚ)/2⌋ := Int.floor_le_floor h1
    _ = 0 := by norm_num
  have h3 : ((round (q * 10000) : ℤ) : ℚ) ≤ 0 := by exact_mod_cast h2
  rw [round4]
  linarith

/-- The local attribute rate is nonnegative. -/
theorem attrRate_nonneg (rs : List Restaurant) (keys : List String) :
    0 ≤ attrRate rs keys := by
  rw [attrRate]
  split
  · exact le_refl 0
  · positivity

/-- An area passing the hard filters is scored, not dropped. -/
theorem processZip_eq_some (ext : Externals) (q : Query) (z : ZipProfile)
    (biz : List Restaurant) (h : hardFiltersPass q z = true) :
    processZip ext q z biz = some (buildCandidate ext q z biz) := by
  rw [hardFiltersPass, Bool.and_eq_true, Bool.not_eq_true'] at h
  obtain ⟨h1, h2⟩ := h
  have h1m : ¬ z.total_reviews < q.min_market_size := of_decide_eq_false h1
  cases hrl : q.risk_levels with
  | none => simp only [processZip, hrl, if_neg h1m]
  | some rl =>
    rw [hrl] at h2
    simp only [Bool.or_eq_true, beq_iff_eq] at h2
    by_cases hempty : rl = ""
    · simp only [processZip, hrl, if_neg h1m, if_pos hempty]
    · rcases h2 with h2 | h2
      · exact absurd h2 hempty
      · simp only [processZip, hrl, if_neg h1m, if_neg hempty, if_pos h2]

/-- Every produced candidate is the scored candidate of its area. -/
theorem processZip_some_eq (ext : Externals) (q : Query) (z : ZipProfile)
    (biz : List Restaurant) (c : Candidate)
    (h : processZip ext q z biz = some c) :
    c = buildCandidate ext q z biz := by
  by_cases h1 : z.total_reviews < q.min_market_size
  · rw [processZip, if_pos h1] at h
    exact absurd h (by simp)
  · cases hrl : q.risk_levels with
    | none =>
      simp only [processZip, hrl, if_neg h1] at h
      exact (Option.some_inj.mp h).symm
    | some rl =>
      by_cases hempty : rl = ""
      · simp only [processZip, hrl, if_neg h1, if_pos hempty] at h
        exact (Option.some_inj.mp h).symm
      · by_cases hrisk : (parseRisks rl).contains (risk_label z.closure_rate) = true
        · simp only [processZip, hrl, if_neg h1, if_neg hempty, if_pos hrisk] at h
          exact (Option.some_inj.mp h).symm
        · simp only [processZip, hrl, if_neg h1, if_neg hempty, if_neg hrisk] at h
          exact absurd h (by simp)

/-- A `scanStep` result is an eligible candidate or the unchanged
accumulator. -/
theorem scanStep_some (f : CityCand → ℚ) (elig : CityCand → Bool)
    (acc : Option CityCand) (c y : CityCand)
    (h : scanStep f elig acc c = some y) :
    elig y = true ∨ acc = some y := by
  rw [scanStep.eq_def] at h
  by_cases hx : elig c = true
  · rw [if_pos hx] at h
    cases hcc : acc with
    | none =>
      rw [hcc] at h
      simp only at h
      obtain rfl := Option.some_inj.mp h
      exact Or.inl hx
    | some a =>
      rw [hcc] at h
      simp only at h
      by_cases hf : f c > f a
      · rw [if_pos hf] at h
        obtain rfl := Option.some_inj.mp h
        exact Or.inl hx
      · rw [if_neg hf] at h
        exact Or.inr h
  · rw [if_neg hx] at h
    exact Or.inr h

/-- The folded scan only ever returns an eligible candidate or the initial
accumulator. -/
theorem foldl_scanStep_some (f : CityCand → ℚ) (elig : CityCand → Bool) :
    ∀ (l : List CityCand) (acc : Option CityCand) (b : CityCand),
      l.foldl (scanStep f elig) acc = some b →
      elig b = true ∨ acc = some b := by
  intro l
  induction l with
  | nil =>
    intro acc b h
    exact Or.inr h
  | cons x xs ih =>
    intro acc b h
    rw [List.foldl_cons] at h
    rcases ih (scanStep f elig acc x) b h with h1 | h1
    · exact Or.inl h1
    · rcases scanStep_some f elig acc x b h1 with h2 | h2
      · exact Or.inl h2
      · exact Or.inr h2

/-- A `scanBest` result is always an eligible candidate. -/
theorem scanBest_elig (f : CityCand → ℚ) (elig : CityCand → Bool)
    (l : List CityCand) (b : CityCand) (h : scanBest f elig l = some b) :
    elig b = true := by
  rcases foldl_scanStep_some f elig l none b h with h1 | h1
  · exact h1
  · exact absurd h1 (by simp)

/-- The haversine distance is symmetric in its two points. -/
theorem haversine_km_comm (lat1 lon1 lat2 lon2 : ℝ) :
    haversine_km lat1 lon1 lat2 lon2 = haversine_km lat2 lon2 lat1 lon1 := by
  rw [haversine_km, haversine_km]
  have h1 : radians (lat1 - lat2) = -radians (lat2 - lat1) := by
    rw [radians, radians]; ring
  have h2 : radians (lon1 - lon2) = -radians (lon2 - lon1) := by
    rw [radians, radians]; ring
  rw [h1, h2]
  rw [neg_div, Real.sin_neg, neg_sq, neg_div, Real.sin_neg, neg_sq]
  ring_nf

/-- The haversine distance of a point to itself is zero. -/
theorem haversine_km_self (lat lon : ℝ) : haversine_km lat lon lat lon = 0 := by
  rw [haversine_km]
  have h0 : radians (lat - lat) = 0 := by rw [sub_self, radians, zero_mul, zero_div]
  have h0' : radians (lon - lon) = 0 := by rw [sub_self, radians, zero_mul, zero_div]
  rw [h0, h0']
  simp only [zero_div, Real.sin_zero, ne_eq, OfNat.ofNat_ne_zero,
    not_false_eq_true, zero_pow, mul_zero, add_zero, Real.sqrt_zero, sub_zero,
    Real.sqrt_one]
  have : atan2 0 1 = 0 := by
    rw [atan2]
    have : (⟨1, 0⟩ : ℂ) = 1 := by
      apply Complex.ext <;> simp
    rw [this, Complex.arg_one]
  rw [this, mul_zero]

/-- Membership in a neighbor list is membership of the oriented pair. -/
theorem mem_neighborsOf (close : String → String → Bool) (zips : List String)
    (z1 z2 : String) :
    z2 ∈ neighborsOf close zips z1 ↔ (z1, z2) ∈ neighborPairs close zips := by
  rw [neighborsOf]
  rw [List.mem_filterMap]
  constructor
  · rintro ⟨⟨a, b⟩, hp, hit⟩
    by_cases ha : a = z1
    · rw [if_pos ha] at hit
      obtain rfl := Option.some_inj.mp hit
      rw [← ha]
      exact hp
    · rw [if_neg ha] at hit
      exact absurd hit (by simp)
  · intro hp
    exact ⟨(z1, z2), hp, by simp⟩

/-- Characterization of the pair list: a pair arises from an ordered
occurrence with a successful closeness test, in either orientation. -/
theorem mem_neighborPairs (close : String → String → Bool) :
    ∀ (zips : List String) (a b : String),
      (a, b) ∈ neighborPairs close zips ↔
        ∃ x y, ((a, b) = (x, y) ∨ (a, b) = (y, x)) ∧
          close x y = true ∧
          ∃ l1 l2, zips = l1 ++ x :: l2 ∧ y ∈ l2 := by
  intro zips
  induction zips with
  | nil =>
    intro a b
    simp [neighborPairs]
  | cons z rest ih =>
    intro a b
    rw [neighborPairs]
    rw [List.mem_append]
    constructor
    · rintro (h | h)
      · rw [List.mem_flatMap] at h
        obtain ⟨z2, hz2, hmem⟩ := h
        rw [List.mem_filter] at hz2
        simp only [List.mem_cons, List.mem_singleton] at hmem
        rcases hmem with h1 | h1
        · exact ⟨z, z2, Or.inl h1, hz2.2, [], rest, rfl, hz2.1⟩
        · rcases h1 with h1 | h1
          · exact ⟨z, z2, Or.inr h1, hz2.2, [], rest, rfl, hz2.1⟩
          · exact absurd h1 (List.not_mem_nil _)
      · obtain ⟨x, y, hor, hc, l1, l2, hsplit, hy⟩ := (ih a b).mp h
        exact ⟨x, y, hor, hc, z :: l1, l2, by rw [hsplit, List.cons_append], hy⟩
    · rintro ⟨x, y, hor, hc, l1, l2, hsplit, hy⟩
      cases l1 with
      | nil =>
        simp only [List.nil_append, List.cons.injEq] at hsplit
        obtain ⟨rfl, rfl⟩ := hsplit
        left
        rw [List.mem_flatMap]
        refine ⟨y, List.mem_filter.mpr ⟨hy, hc⟩, ?_⟩
        rcases hor with h1 | h1
        · rw [h1]; simp
        · rw [h1]; simp
      | cons w l1' =>
        simp only [List.cons_append, List.cons.injEq] at hsplit
        obtain ⟨rfl, hsplit⟩ := hsplit
        right
        exact (ih a b).mpr ⟨x, y, hor, hc, l1', l2, hsplit, hy⟩

/-- Both components of a recorded pair come from the zip list. -/
theorem mem_of_mem_neighborPairs (close : String → String → Bool) :
    ∀ (zips : List String) (a b : String),
      (a, b) ∈ neighborPairs close zips → a ∈ zips ∧ b ∈ zips := by
  intro zips a b h
  obtain ⟨x, y, hor, _, l1, l2, hsplit, hy⟩ :=
    (mem_neighborPairs close zips a b).mp h
  have hx : x ∈ zips := by rw [hsplit]; simp
  have hy' : y ∈ zips := by rw [hsplit]; simp [hy]
  rcases hor with h1 | h1
  · obtain ⟨rfl, rfl⟩ := Prod.mk.injEq .. ▸ Prod.ext_iff.mp h1
    exact ⟨hx, hy'⟩
  · obtain ⟨rfl, rfl⟩ := Prod.mk.injEq .. ▸ Prod.ext_iff.mp h1
    exact ⟨hy', hx⟩

/-- The pair list is symmetric by construction: both orientations are
always recorded together. -/
theorem neighborPairs_comm (close : String → String → Bool)
    (zips : List String) (a b : String) :
    (a, b) ∈ neighborPairs close zips ↔ (b, a) ∈ neighborPairs close zips := by
  constructor <;> intro h <;>
    obtain ⟨x, y, hor, hc, l1, l2, hsplit, hy⟩ :=
      (mem_neighborPairs close zips _ _).mp h
  · apply (mem_neighborPairs close zips b a).mpr
    refine ⟨x, y, ?_, hc, l1, l2, hsplit, hy⟩
    rcases hor with h1 | h1
    · right
      rw [Prod.ext_iff] at h1 ⊢
      exact ⟨h1.2, h1.1⟩
    · left
      rw [Prod.ext_iff] at h1 ⊢
      exact ⟨h1.2, h1.1⟩
  · apply (mem_neighborPairs close zips a b).mpr
    refine ⟨x, y, ?_, hc, l1, l2, hsplit, hy⟩
    rcases hor with h1 | h1
    · right
      rw [Prod.ext_iff] at h1 ⊢
      exact ⟨h1.2, h1.1⟩
    · left
      rw [Prod.ext_iff] at h1 ⊢
      exact ⟨h1.2, h1.1⟩

/-- For distinct zips of a duplicate-free list, pair membership is exactly
the closeness test (using symmetry of the test). -/
theorem mem_neighborPairs_iff_close (close : String → String → Bool)
    (hsym : ∀ a b, close a b = close b a) :
    ∀ (zips : List String), zips.Nodup → ∀ a b, a ∈ zips → b ∈ zips →
      a ≠ b → ((a, b) ∈ neighborPairs close zips ↔ close a b = true) := by
  intro zips
  induction zips with
  | nil =>
    intro _ a b ha _ _
    exact absurd ha (List.not_mem_nil a)
  | cons z rest ih =>
    intro hnd a b ha hb hab
    have hz : z ∉ rest := (List.nodup_cons.mp hnd).1
    have hnd' : rest.Nodup := (List.nodup_cons.mp hnd).2
    rw [neighborPairs, List.mem_append]
    constructor
    · rintro (h | h)
      · rw [List.mem_flatMap] at h
        obtain ⟨z2, hz2, hmem⟩ := h
        rw [List.mem_filter] at hz2
        simp only [List.mem_cons, List.mem_singleton, List.not_mem_nil,
          or_false] at hmem
        rcases hmem with h1 | h1
        · rw [Prod.ext_iff] at h1
          obtain ⟨rfl, rfl⟩ := h1
          exact hz2.2
        · rw [Prod.ext_iff] at h1
          obtain ⟨rfl, rfl⟩ := h1
          rw [hsym]
          exact hz2.2
      · have hmem := mem_of_mem_neighborPairs close rest a b h
        rcases List.mem_cons.mp ha with rfl | ha'
        · exact absurd hmem.1 hz
        · rcases List.mem_cons.mp hb with rfl | hb'
          · exact absurd hmem.2 hz
          · exact (ih hnd' a b ha' hb' hab).mp h
    · intro hc
      rcases List.mem_cons.mp ha with rfl | ha'
      · -- a is the head; b occurs in the tail
        have hb' : b ∈ rest := by
          rcases List.mem_cons.mp hb with rfl | hb'
          · exact absurd rfl hab
          · exact hb'
        left
        rw [List.mem_flatMap]
        exact ⟨b, List.mem_filter.mpr ⟨hb', hc⟩, by simp⟩
      · rcases List.mem_cons.mp hb with rfl | hb'
        · -- b is the head; a occurs in the tail
          left
          rw [List.mem_flatMap]
          refine ⟨a, List.mem_filter.mpr ⟨ha', ?_⟩, by simp⟩
          rw [hsym]
          exact hc
        · right
          exact (ih hnd' a b ha' hb' hab).mpr hc

/- ── Claim theorems ──────────────────────────────────────────────────── -/

/-- C1: for every area and every cuisine reported in its gap list, the gap
score equals neighbor_demand / (local_count × max(local_avg_rating, 1) + 1)
rounded to two decimals, where the reported fields really are the area's
neighbor demand, its local count, and its rounded local average rating for
that cuisine. -/
theorem c1_gap_formula (localRs : List Restaurant)
    (nbrs : List (List Restaurant)) (e : CuisineGap)
    (he : e ∈ cuisineGaps localRs nbrs) :
    e.gap_score =
        round2 ((e.neighbor_demand : ℚ) /
          ((e.local_count : ℚ) * max e.local_avg_stars 1 + 1)) ∧
      e.local_count = cuisineCount localRs e.cuisine ∧
      e.neighbor_demand = neighborDemand nbrs e.cuisine ∧
      e.local_avg_stars = avgStars3 (localStars localRs e.cuisine) :=
  ⟨(mem_cuisineGaps_spec localRs nbrs e he).2.2.1,
    (mem_cuisineGaps_spec localRs nbrs e he).2.2.2⟩

theorem cuisineGaps_exJp :
    cuisineGaps exLocalJp exNbrsJp = [⟨"Japanese", 533/100, 1, 24, 7/2⟩] := by
  rw [cuisineGaps]
  have hf : CUISINE_KEYWORDS.filter
      (fun c => cuisineCount exLocalJp c != 0 || neighborDemand exNbrsJp c != 0) =
      ["Japanese"] := by decide
  rw [hf]
  have hcl : cuisineCount exLocalJp "Japanese" = 1 := by decide
  have hnd : neighborDemand exNbrsJp "Japanese" = 24 := by decide
  have hst : localStars exLocalJp "Japanese" = [7/2] := by
    have hb : (((7 : ℚ)/2) == 0) = false := by
      rw [beq_eq_false_iff_ne]
      norm_num
    rw [localStars]
    rw [show exLocalJp =
      [{ categories := "Japanese", stars := 7/2, is_open := 1 }] from rfl]
    rw [List.filter_cons]
    simp only [hb, Bool.not_false, Bool.and_true]
    rw [if_pos (by decide : ((get_cuisines
      ({ categories := "Japanese", stars := 7/2, is_open := 1 } :
        Restaurant).categories).contains "Japanese") = true)]
    rfl
  have hentry : mkGapEntry exLocalJp exNbrsJp "Japanese" =
      some ⟨"Japanese", 533/100, 1, 24, 7/2⟩ := by
    rw [mkGapEntry, hnd, hcl, hst]
    norm_num [MIN_NEIGHBOR_DEMAND, GAP_SCORE_MIN, avgStars3, round3, round2,
      round_eq, max_def]
  rw [List.filterMap_cons, hentry]
  rfl

/-- C1 witness: the spec's example area (neighbor demand 24, local count 1,
local average rating 3.5) is reported with gap score 5.33 and satisfies the
formula. -/
theorem c1_gap_formula_witness :
    (⟨"Japanese", 533/100, 1, 24, 7/2⟩ : CuisineGap).gap_score =
        round2 (((24 : ℕ) : ℚ) / (((1 : ℕ) : ℚ) * max (7/2 : ℚ) 1 + 1)) ∧
      round2 (((24 : ℕ) : ℚ) / (((1 : ℕ) : ℚ) * max (7/2 : ℚ) 1 + 1)) = 533/100 := by
  constructor
  · exact (c1_gap_formula exLocalJp exNbrsJp _ (by rw [cuisineGaps_exJp]; simp)).1
  · norm_num [round2, round_eq, max_def]

/-- C2 counterexample: a business flagged closed still contributes to the
cuisine count of its area ("Italian" counts 1 here, not 0 as the claim
requires). -/
theorem c2_counterexample :
    cuisineCount [{ categories := "Italian", is_open := 0 }] "Italian" = 1 ∧
      ({ categories := "Italian", is_open := 0 } : Restaurant).is_open = 0 :=
  ⟨by decide, rfl⟩

/-- C2 (amended): the cuisine count of a keyword counts every business of
the area — open or closed — whose category string contains the keyword as
a case-insensitive substring; a single business may count toward several
cuisines. -/
theorem c2_count_all_businesses (rs : List Restaurant) (c : String)
    (hc : c ∈ CUISINE_KEYWORDS) :
    cuisineCount rs c =
      rs.countP
        (fun r => !(r.categories == "") &&
          strContains (lowerS r.categories) (lowerS c)) := by
  rw [cuisineCount]
  apply List.countP_congr
  intro r _
  rw [contains_get_cuisines r.categories c hc]

/-- C2 witness: with one open and one closed Italian restaurant both are
counted. -/
theorem c2_count_all_businesses_witness :
    cuisineCount
        ([{ categories := "Italian Pizza", is_open := 1 },
          { categories := "Italian", is_open := 0 }] : List Restaurant) "Italian" =
      List.countP
        (fun r : Restaurant => !(r.categories == "") &&
          strContains (lowerS r.categories) (lowerS "Italian"))
        ([{ categories := "Italian Pizza", is_open := 1 },
          { categories := "Italian", is_open := 0 }] : List Restaurant) ∧
      cuisineCount
        ([{ categories := "Italian Pizza", is_open := 1 },
          { categories := "Italian", is_open := 0 }] : List Restaurant) "Italian" = 2 :=
  ⟨c2_count_all_businesses _ "Italian" (by decide), by decide⟩

theorem cuisineGaps_exTie :
    cuisineGaps [] exNbrTie =
      [⟨"Thai", 2, 0, 2, 0⟩, ⟨"Greek", 2, 0, 2, 0⟩] := by
  rw [cuisineGaps]
  have hf : CUISINE_KEYWORDS.filter
      (fun c => cuisineCount [] c != 0 || neighborDemand exNbrTie c != 0) =
      ["Thai", "Greek"] := by decide
  rw [hf]
  have h1 : mkGapEntry [] exNbrTie "Thai" = some ⟨"Thai", 2, 0, 2, 0⟩ := by
    rw [mkGapEntry]
    rw [show neighborDemand exNbrTie "Thai" = 2 from by decide]
    rw [show cuisineCount [] "Thai" = 0 from by decide]
    rw [show localStars [] "Thai" = [] from rfl]
    norm_num [MIN_NEIGHBOR_DEMAND, GAP_SCORE_MIN, avgStars3, round2,
      round_eq, max_def]
  have h2 : mkGapEntry [] exNbrTie "Greek" = some ⟨"Greek", 2, 0, 2, 0⟩ := by
    rw [mkGapEntry]
    rw [show neighborDemand exNbrTie "Greek" = 2 from by decide]
    rw [show cuisineCount [] "Greek" = 0 from by decide]
    rw [show localStars [] "Greek" = [] from rfl]
    norm_num [MIN_NEIGHBOR_DEMAND, GAP_SCORE_MIN, avgStars3, round2,
      round_eq, max_def]
  rw [List.filterMap_cons, h1, List.filterMap_cons, h2, List.filterMap_nil]
  norm_num [List.insertionSort, List.orderedInsert, gapOrder, TOP_CUISINE_GAPS]

/-- C6 counterexample: two tied gap scores make the reported list
non-strictly sorted (both "Thai" and "Greek" score 2.0 here). -/
theorem c6_counterexample :
    ¬ List.Pairwise (fun a b : CuisineGap => b.gap_score < a.gap_score)
      (cuisineGaps [] exNbrTie) := by
  rw [cuisineGaps_exTie]
  intro hp
  have := List.rel_of_pairwise_cons hp (List.mem_singleton.mpr rfl)
  norm_num at this

/-- C6 (amended): every reported cuisine-gap entry satisfies the demand
floor (≥ 2) and score minimum (≥ 1.0), the list is sorted in non-increasing
order of gap_score (ties are possible, so not strictly), and it has at most
10 entries. -/
theorem c6_gap_list_invariants (localRs : List Restaurant)
    (nbrs : List (List Restaurant)) :
    (∀ e ∈ cuisineGaps localRs nbrs,
        MIN_NEIGHBOR_DEMAND ≤ e.neighbor_demand ∧ GAP_SCORE_MIN ≤ e.gap_score) ∧
      List.Sorted gapOrder (cuisineGaps localRs nbrs) ∧
      (cuisineGaps localRs nbrs).length ≤ TOP_CUISINE_GAPS := by
  refine ⟨fun e he => ⟨(mem_cuisineGaps_spec _ _ e he).1,
    (mem_cuisineGaps_spec _ _ e he).2.1⟩, ?_, ?_⟩
  · rw [cuisineGaps]
    exact List.Pairwise.sublist (List.take_sublist _ _)
      (List.sorted_insertionSort gapOrder _)
  · rw [cuisineGaps]
    exact List.length_take_le _ _

/-- C6 witness: the invariants at the tied example, including the first
reported entry. -/
theorem c6_gap_list_invariants_witness :
    (MIN_NEIGHBOR_DEMAND ≤ (⟨"Thai", 2, 0, 2, 0⟩ : CuisineGap).neighbor_demand ∧
        GAP_SCORE_MIN ≤ (⟨"Thai", 2, 0, 2, 0⟩ : CuisineGap).gap_score) ∧
      List.Sorted gapOrder (cuisineGaps [] exNbrTie) ∧
      (cuisineGaps [] exNbrTie).length ≤ TOP_CUISINE_GAPS := by
  refine ⟨?_, (c6_gap_list_invariants [] exNbrTie).2.1,
    (c6_gap_list_invariants [] exNbrTie).2.2⟩
  apply (c6_gap_list_invariants [] exNbrTie).1
  rw [cuisineGaps_exTie]
  simp

/-- C9: an area with zero neighbors produces empty cuisine-gap and
attribute-gap lists rather than an error (the computation is total). -/
theorem c9_zero_neighbors_empty (localRs : List Restaurant) :
    cuisineGaps localRs [] = [] ∧ attrGaps localRs [] = [] := by
  constructor
  · rw [cuisineGaps]
    have h : ∀ c ∈ CUISINE_KEYWORDS.filter
        (fun c => cuisineCount localRs c != 0 || neighborDemand [] c != 0),
        mkGapEntry localRs [] c = none := by
      intro c _
      rw [mkGapEntry]
      rw [show neighborDemand [] c = 0 from rfl]
      norm_num [MIN_NEIGHBOR_DEMAND]
    rw [List.filterMap_eq_nil_iff.mpr h]
    rfl
  · rw [attrGaps]
    rw [List.filterMap_eq_nil_iff.mpr ?_]
    · rfl
    · intro p _
      rw [attrGapEntry]
      simp only [List.map_nil]
      rw [if_pos trivial]
      have hle : round4 (0 - attrRate localRs p.2) ≤ 0 :=
        round4_nonpos (by linarith [attrRate_nonneg localRs p.2])
      rw [if_neg (by linarith : ¬ round4 (0 - attrRate localRs p.2) > 1/20)]

/-- C8 counterexample: under the claim's own premises (the closeness test
agrees with the haversine comparison everywhere on the index), the clause
"two areas are neighbors exactly when their distance is at most the
radius" fails for A = B: an area has distance 0 to itself, yet is never its
own neighbor. -/
theorem c8_counterexample :
    haversine_km 0 0 0 0 ≤ NEIGHBOR_RADIUS_KM ∧
      ((fun _ _ => true : String → String → Bool) "08002" "08002" = true ↔
        haversine_km ((fun _ : String => ((0:ℝ), (0:ℝ))) "08002").1
          ((fun _ : String => ((0:ℝ), (0:ℝ))) "08002").2
          ((fun _ : String => ((0:ℝ), (0:ℝ))) "08002").1
          ((fun _ : String => ((0:ℝ), (0:ℝ))) "08002").2 ≤ NEIGHBOR_RADIUS_KM) ∧
      "08002" ∉ neighborsOf (fun _ _ => true) ["08002"] "08002" := by
  refine ⟨?_, ?_, ?_⟩
  · rw [haversine_km_self]
    norm_num [NEIGHBOR_RADIUS_KM]
  · constructor
    · intro _
      show haversine_km 0 0 0 0 ≤ NEIGHBOR_RADIUS_KM
      rw [haversine_km_self]
      norm_num [NEIGHBOR_RADIUS_KM]
    · intro _
      rfl
  · decide

/-- C8 (amended): for a duplicate-free area index whose closeness test is
the haversine comparison against the centroids, the neighbor relation is
symmetric, and two DISTINCT areas are neighbors exactly when the haversine
distance (Earth radius 6371 km) between their centroids is at most
NEIGHBOR_RADIUS_KM (an area is never its own neighbor, although its
self-distance is 0). -/
theorem c8_neighbor_relation (zips : List String) (cent : String → ℝ × ℝ)
    (close : String → String → Bool) (hnd : zips.Nodup)
    (hclose : ∀ a b, close a b = true ↔
      haversine_km (cent a).1 (cent a).2 (cent b).1 (cent b).2 ≤
        NEIGHBOR_RADIUS_KM)
    (a b : String) (ha : a ∈ zips) (hb : b ∈ zips) :
    (a ∈ neighborsOf close zips b ↔ b ∈ neighborsOf close zips a) ∧
      (a ≠ b →
        (b ∈ neighborsOf close zips a ↔
          haversine_km (cent a).1 (cent a).2 (cent b).1 (cent b).2 ≤
            NEIGHBOR_RADIUS_KM)) := by
  have hsym : ∀ x y, close x y = close y x := by
    intro x y
    by_cases hxy : close x y = true
    · have h1 := (hclose x y).mp hxy
      rw [haversine_km_comm] at h1
      rw [hxy, ((hclose y x).mpr h1)]
    · by_cases hyx : close y x = true
      · have h1 := (hclose y x).mp hyx
        rw [haversine_km_comm] at h1
        exact absurd ((hclose x y).mpr h1) hxy
      · rw [Bool.eq_false_iff.mpr hxy, Bool.eq_false_iff.mpr hyx]
  constructor
  · rw [mem_neighborsOf, mem_neighborsOf, neighborPairs_comm]
  · intro hab
    rw [mem_neighborsOf]
    rw [mem_neighborPairs_iff_close close hsym zips hnd a b ha hb hab]
    exact hclose a b

/-- C8 witness: two distinct areas indexed at the origin are mutual
neighbors, and the distance criterion holds for them. -/
theorem c8_neighbor_relation_witness :
    (("08001" ∈ neighborsOf (fun _ _ => true) ["08001", "08002"] "08002" ↔
        "08002" ∈ neighborsOf (fun _ _ => true) ["08001", "08002"] "08001") ∧
      ("08001" ≠ "08002" →
        ("08002" ∈ neighborsOf (fun _ _ => true) ["08001", "08002"] "08001" ↔
          haversine_km ((fun _ : String => ((0:ℝ), (0:ℝ))) "08001").1
            ((fun _ : String => ((0:ℝ), (0:ℝ))) "08001").2
            ((fun _ : String => ((0:ℝ), (0:ℝ))) "08002").1
            ((fun _ : String => ((0:ℝ), (0:ℝ))) "08002").2 ≤
            NEIGHBOR_RADIUS_KM))) :=
  c8_neighbor_relation ["08001", "08002"] (fun _ => ((0:ℝ), (0:ℝ)))
    (fun _ _ => true) (by decide)
    (fun a b =>
      ⟨fun _ => by
        show haversine_km 0 0 0 0 ≤ NEIGHBOR_RADIUS_KM
        rw [haversine_km_self]
        norm_num [NEIGHBOR_RADIUS_KM],
       fun _ => rfl⟩)
    "08001" "08002" (by decide) (by decide)

/-- The blended score is clamped into [0.1, 99.9]. -/
theorem blendScore_bounds (base jitter : ℚ) :
    1/10 ≤ blendScore base jitter ∧ blendScore base jitter ≤ 999/10 := by
  constructor
  · exact le_max_left _ _
  · rw [blendScore]
    exact max_le (by norm_num) (min_le_left _ _)

/-- The blended score carries exactly one decimal place. -/
theorem blendScore_one_decimal (base jitter : ℚ) :
    ∃ k : ℤ, blendScore base jitter * 10 = (k : ℚ) := by
  rw [blendScore, round1]
  rcases le_total ((round ((min 99 base + jitter) * 10) : ℚ) / 10) (999/10) with h | h
  · rw [min_eq_right h]
    rcases le_total (1/10) ((round ((min 99 base + jitter) * 10) : ℚ) / 10) with h2 | h2
    · rw [max_eq_right h2]
      exact ⟨round ((min 99 base + jitter) * 10), by ring⟩
    · rw [max_eq_left h2]
      exact ⟨1, by norm_num⟩
  · rw [min_eq_left h]
    rw [max_eq_right (by norm_num : (1:ℚ)/10 ≤ 999/10)]
    exact ⟨999, by norm_num⟩

/-- C7: every candidate produced by the per-area recommendation pipeline
has a match score in [0.1, 99.9] carrying exactly one decimal place, for
all query parameters, snapshot contents, survival probabilities, jitters
and accumulated penalties. -/
theorem c7_score_bounds (ext : Externals) (q : Query) (z : ZipProfile)
    (biz : List Restaurant) (c : Candidate)
    (h : processZip ext q z biz = some c) :
    1/10 ≤ c.score ∧ c.score ≤ 999/10 ∧
      ∃ k : ℤ, c.score * 10 = (k : ℚ) := by
  obtain rfl : c = buildCandidate ext q z biz := processZip_some_eq ext q z biz c h
  exact ⟨(blendScore_bounds _ _).1, (blendScore_bounds _ _).2,
    blendScore_one_decimal _ _⟩

/-- C7 witness: the default query against the default area produces a
candidate whose score satisfies the bounds and decimal format. -/
theorem c7_score_bounds_witness :
    1/10 ≤ (buildCandidate {} {} {} []).score ∧
      (buildCandidate {} {} {} []).score ≤ 999/10 ∧
      ∃ k : ℤ, (buildCandidate {} {} {} []).score * 10 = (k : ℚ) :=
  c7_score_bounds {} {} {} [] _ rfl

/-- Unfolding of the cuisine step when neither the exact tier nor the
synonym tier matches: the ad-hoc proxy decides between the two relaxed
outcomes. -/
theorem cuisineStep_adhoc (q : Query) (z : ZipProfile) (biz : List Restaurant)
    (cu : String) (acc : FilterAcc) (hcu : queryCuisine q = some cu)
    (hexact : z.top_cuisine_gaps.filter
      (fun g => lowerS g.cuisine == lowerS cu) = [])
    (hsyn : z.top_cuisine_gaps.filter
      (fun g => (cuisineFamily cu).contains (lowerS g.cuisine)) = []) :
    cuisineStep q z biz acc =
      if adHocProxy z biz cu > 0 then
        ({ isExact := false
           penalty := acc.penalty - 8
           issues := acc.issues ++
             ["Cuisine gap exists but not among strongest in this area"] },
          (adHocProxy z biz cu : ℚ))
      else
        ({ isExact := false
           penalty := acc.penalty - 12
           issues := acc.issues ++
             ["No measurable cuisine gap detected in this area"] },
          0) := by
  rw [cuisineStep.eq_def, hcu]
  simp only [hexact, hsyn, List.head?_nil]

/-- Unfolding of the cuisine step on a synonym-family match: the head of
the family-filtered gap list is used and annotated. -/
theorem cuisineStep_syn (q : Query) (z : ZipProfile) (biz : List Restaurant)
    (cu : String) (acc : FilterAcc) (g : CuisineGap)
    (hcu : queryCuisine q = some cu)
    (hexact : z.top_cuisine_gaps.filter
      (fun e => lowerS e.cuisine == lowerS cu) = [])
    (hsyn : (z.top_cuisine_gaps.filter
      (fun e => (cuisineFamily cu).contains (lowerS e.cuisine))).head? = some g) :
    cuisineStep q z biz acc =
      ({ acc with
         issues := acc.issues ++ ["Matched via related cuisine: " ++ g.cuisine] },
        g.gap_score) := by
  rw [cuisineStep.eq_def, hcu]
  simp only [hexact, List.head?_nil, hsyn]

/-- The price step never increases the accumulated penalty. -/
theorem priceStep_penalty_le (q : Query) (z : ZipProfile) (acc : FilterAcc) :
    (priceStep q z acc).penalty ≤ acc.penalty := by
  rw [priceStep.eq_def]
  cases q.max_price_tier with
  | none => exact le_refl _
  | some m =>
    simp only
    split
    · exact le_refl _
    · split
      · split
        · simp only
          linarith
        · simp only
          linarith
      · exact le_refl _

/-- The attribute step never increases the accumulated penalty. -/
theorem attrStep_penalty_le (q : Query) (z : ZipProfile)
    (biz : List Restaurant) (acc : FilterAcc) :
    (attrStep q z biz acc).penalty ≤ acc.penalty := by
  rw [attrStep.eq_def]
  simp only
  split
  · exact le_refl _
  · split
    · simp only
      have := Nat.cast_nonneg (α := ℚ)
        ((requiredAttrs q).filter
          (fun a => !((z.attr_gaps.map (·.attr)).contains a))).length
      linarith
    · split
      · simp only
        have := Nat.cast_nonneg (α := ℚ)
          ((requiredAttrs q).filter
            (fun a => !((z.attr_gaps.map (·.attr)).contains a))).length
        linarith
      · simp only
        have := Nat.cast_nonneg (α := ℚ)
          ((requiredAttrs q).filter
            (fun a => !((z.attr_gaps.map (·.attr)).contains a))).length
        linarith

/-- The accumulator reaching the cuisine step (projection form). -/
theorem buildCandidate_issues (ext : Externals) (q : Query) (z : ZipProfile)
    (biz : List Restaurant) :
    (buildCandidate ext q z biz).issues =
      (cuisineStep q z biz (attrStep q z biz (priceStep q z {}))).1.issues := rfl

theorem buildCandidate_topGap (ext : Externals) (q : Query) (z : ZipProfile)
    (biz : List Restaurant) :
    (buildCandidate ext q z biz).topGap =
      (cuisineStep q z biz (attrStep q z biz (priceStep q z {}))).2 := rfl

theorem buildCandidate_isExact (ext : Externals) (q : Query) (z : ZipProfile)
    (biz : List Restaurant) :
    (buildCandidate ext q z biz).isExact =
      (if (cuisineStep q z biz (attrStep q z biz (priceStep q z {}))).1.penalty < 0 ∧
          (cuisineStep q z biz (attrStep q z biz (priceStep q z {}))).1.penalty ≥ -10
        then true
        else (cuisineStep q z biz (attrStep q z biz (priceStep q z {}))).1.isExact) := rfl

/-- C4 counterexample: with cuisine "Ethiopian" (no synonyms), an area with
no gap list at all has proxy 0, yet the area still appears in the results —
as a relaxed candidate annotated "No measurable cuisine gap detected in
this area" — instead of being rejected as the claim requires. -/
theorem c4_counterexample :
    adHocProxy {} [] "Ethiopian" ≤ 0 ∧
      (processZip { sortedGaps := [0] } { cuisine := some "Ethiopian" } {} []).map
          Candidate.issues =
        some ["No measurable cuisine gap detected in this area"] ∧
      (processZip { sortedGaps := [0] } { cuisine := some "Ethiopian" } {} []).map
          Candidate.isExact =
        some false := by
  refine ⟨by decide, by decide, ?_⟩
  rw [processZip_eq_some _ _ _ _ (by decide), Option.map_some']
  rw [buildCandidate_isExact]
  have hstep := cuisineStep_adhoc { cuisine := some "Ethiopian" } {} [] "Ethiopian"
    (attrStep { cuisine := some "Ethiopian" } {} []
      (priceStep { cuisine := some "Ethiopian" } {} {})) rfl rfl rfl
  rw [if_neg (by decide : ¬ adHocProxy {} [] "Ethiopian" > 0)] at hstep
  rw [hstep]
  rw [show attrStep { cuisine := some "Ethiopian" } {} []
    (priceStep { cuisine := some "Ethiopian" } {} {}) = ({} : FilterAcc) from rfl]
  norm_num

/-- C4 (amended): with no exact-name and no synonym-family gap match, the
ad-hoc proxy decides the outcome, but the area is kept in both cases: a
positive proxy keeps it with the proxy as its gap score and the
"not among strongest" annotation; a non-positive proxy also keeps it (it is
NOT rejected), with gap 0, the "No measurable cuisine gap" annotation, and
a relaxed (non-exact) match type. -/
theorem c4_adhoc_kept (ext : Externals) (q : Query) (z : ZipProfile)
    (biz : List Restaurant) (cu : String)
    (hcu : queryCuisine q = some cu)
    (hhard : hardFiltersPass q z = true)
    (hexact : z.top_cuisine_gaps.filter
      (fun g => lowerS g.cuisine == lowerS cu) = [])
    (hsyn : z.top_cuisine_gaps.filter
      (fun g => (cuisineFamily cu).contains (lowerS g.cuisine)) = []) :
    ∃ c, processZip ext q z biz = some c ∧
      (0 < adHocProxy z biz cu →
        c.topGap = (adHocProxy z biz cu : ℚ) ∧
        "Cuisine gap exists but not among strongest in this area" ∈ c.issues) ∧
      (adHocProxy z biz cu ≤ 0 →
        c.topGap = 0 ∧
        "No measurable cuisine gap detected in this area" ∈ c.issues ∧
        c.isExact = false) := by
  refine ⟨buildCandidate ext q z biz, processZip_eq_some ext q z biz hhard, ?_, ?_⟩
  · intro hpos
    have hstep := cuisineStep_adhoc q z biz cu
      (attrStep q z biz (priceStep q z {})) hcu hexact hsyn
    rw [if_pos hpos] at hstep
    constructor
    · show (cuisineStep q z biz (attrStep q z biz (priceStep q z {}))).2 = _
      rw [hstep]
    · show _ ∈ (cuisineStep q z biz (attrStep q z biz (priceStep q z {}))).1.issues
      rw [hstep]
      simp
  · intro hneg
    have hstep := cuisineStep_adhoc q z biz cu
      (attrStep q z biz (priceStep q z {})) hcu hexact hsyn
    rw [if_neg (by omega : ¬ adHocProxy z biz cu > 0)] at hstep
    refine ⟨?_, ?_, ?_⟩
    · show (cuisineStep q z biz (attrStep q z biz (priceStep q z {}))).2 = _
      rw [hstep]
    · show _ ∈ (cuisineStep q z biz (attrStep q z biz (priceStep q z {}))).1.issues
      rw [hstep]
      simp
    · show (if (cuisineStep q z biz (attrStep q z biz (priceStep q z {}))).1.penalty < 0 ∧
          (cuisineStep q z biz (attrStep q z biz (priceStep q z {}))).1.penalty ≥ -10
        then true
        else (cuisineStep q z biz (attrStep q z biz (priceStep q z {}))).1.isExact) = false
      rw [hstep]
      have h1 := attrStep_penalty_le q z biz (priceStep q z {})
      have h2 := priceStep_penalty_le q z ({} : FilterAcc)
      have h0 : ({} : FilterAcc).penalty = 0 := rfl
      rw [if_neg ?_]
      rintro ⟨-, hge⟩
      simp only at hge
      rw [h0] at h2
      linarith

/-- C4 witness: the amended behaviour at the concrete no-gap area. -/
theorem c4_adhoc_kept_witness :
    ∃ c, processZip { sortedGaps := [0] } { cuisine := some "Ethiopian" } {} [] =
        some c ∧
      (0 < adHocProxy {} [] "Ethiopian" →
        c.topGap = (adHocProxy {} [] "Ethiopian" : ℚ) ∧
        "Cuisine gap exists but not among strongest in this area" ∈ c.issues) ∧
      (adHocProxy {} [] "Ethiopian" ≤ 0 →
        c.topGap = 0 ∧
        "No measurable cuisine gap detected in this area" ∈ c.issues ∧
        c.isExact = false) :=
  c4_adhoc_kept { sortedGaps := [0] } { cuisine := some "Ethiopian" } {} []
    "Ethiopian" rfl (by decide) rfl rfl

/-- C10: for a query with cuisine "Sushi" against an area whose gap list
has no "Sushi" entry but whose first synonym-family entry is a "Japanese"
entry, the synonym tier fires: that entry's gap_score is used for scoring
and the candidate is annotated "Matched via related cuisine: Japanese". -/
theorem c10_sushi_synonym (ext : Externals) (q : Query) (z : ZipProfile)
    (biz : List Restaurant) (g : CuisineGap)
    (hcu : queryCuisine q = some "Sushi")
    (hhard : hardFiltersPass q z = true)
    (hexact : z.top_cuisine_gaps.filter
      (fun e => lowerS e.cuisine == lowerS "Sushi") = [])
    (hsyn : (z.top_cuisine_gaps.filter
      (fun e => (cuisineFamily "Sushi").contains (lowerS e.cuisine))).head? =
        some g)
    (hjp : g.cuisine = "Japanese") :
    ∃ c, processZip ext q z biz = some c ∧ c.topGap = g.gap_score ∧
      "Matched via related cuisine: Japanese" ∈ c.issues := by
  refine ⟨buildCandidate ext q z biz, processZip_eq_some ext q z biz hhard,
    ?_, ?_⟩
  · rw [buildCandidate_topGap]
    rw [cuisineStep_syn q z biz "Sushi" _ g hcu hexact hsyn]
  · rw [buildCandidate_issues]
    rw [cuisineStep_syn q z biz "Sushi" _ g hcu hexact hsyn]
    rw [hjp]
    simp

/-- C10 witness: the synonym match fires at the concrete example area. -/
theorem c10_sushi_synonym_witness :
    ∃ c, processZip {} { cuisine := some "Sushi" } exC10Zip [] = some c ∧
      c.topGap = (⟨"Japanese", 5, 1, 24, 3⟩ : CuisineGap).gap_score ∧
      "Matched via related cuisine: Japanese" ∈ c.issues :=
  c10_sushi_synonym {} { cuisine := some "Sushi" } exC10Zip []
    ⟨"Japanese", 5, 1, 24, 3⟩ rfl (by decide) (by decide) (by decide) rfl

theorem attrRate_exC3Local (keys : List String)
    (h : attr_true [] keys = false) : attrRate exC3Local keys = 0 := by
  rw [attrRate, if_neg (by simp [exC3Local])]
  rw [show List.countP (fun r => attr_true r.attributes keys) exC3Local = 0 by
    simp [exC3Local, List.countP_cons, h]]
  norm_num

theorem attrRate_exC3Nbr (keys : List String) :
    attrRate [({ attributes := [("RestaurantsDelivery", "True")] } : Restaurant)]
        keys =
      if attr_true [("RestaurantsDelivery", "True")] keys then 1 else 0 := by
  rw [attrRate, if_neg (by simp)]
  by_cases h : attr_true [("RestaurantsDelivery", "True")] keys = true
  · rw [if_pos h]
    rw [show List.countP
      (fun r => attr_true r.attributes keys)
      [({ attributes := [("RestaurantsDelivery", "True")] } : Restaurant)] = 1 by
      simp [List.countP_cons, h]]
    norm_num
  · rw [if_neg h]
    rw [show List.countP
      (fun r => attr_true r.attributes keys)
      [({ attributes := [("RestaurantsDelivery", "True")] } : Restaurant)] = 0 by
      simp [List.countP_cons, h]]
    norm_num

theorem attrGapEntry_exC3_none (name : String) (keys : List String)
    (h0 : attr_true [] keys = false)
    (h1 : attr_true [("RestaurantsDelivery", "True")] keys = false) :
    attrGapEntry exC3Local exC3Nbrs (name, keys) = none := by
  rw [attrGapEntry]
  rw [show exC3Nbrs.map (fun ns => attrRate ns (name, keys).2) =
    [attrRate [({ attributes := [("RestaurantsDelivery", "True")] } : Restaurant)]
      keys] from rfl]
  rw [attrRate_exC3Nbr keys, h1]
  rw [show (name, keys).2 = keys from rfl, attrRate_exC3Local keys h0]
  norm_num [round4, round_eq]

theorem attrGapEntry_exC3_delivery :
    attrGapEntry exC3Local exC3Nbrs ("Delivery", ["RestaurantsDelivery"]) =
      some ⟨"Delivery", 0, 1, 1⟩ := by
  rw [attrGapEntry]
  rw [show exC3Nbrs.map
      (fun ns => attrRate ns (("Delivery", ["RestaurantsDelivery"])).2) =
    [attrRate [({ attributes := [("RestaurantsDelivery", "True")] } : Restaurant)]
      ["RestaurantsDelivery"]] from rfl]
  rw [attrRate_exC3Nbr ["RestaurantsDelivery"]]
  rw [if_pos (by decide :
    attr_true [("RestaurantsDelivery", "True")] ["RestaurantsDelivery"] = true)]
  rw [show (("Delivery", ["RestaurantsDelivery"]) : String × List String).2 =
    ["RestaurantsDelivery"] from rfl]
  rw [attrRate_exC3Local ["RestaurantsDelivery"] (by decide)]
  norm_num [round4, round_eq]

/-- The batch output for the C3 example: exactly one attribute gap, named
"Delivery". -/
theorem attrGaps_exC3 :
    attrGaps exC3Local exC3Nbrs = [⟨"Delivery", 0, 1, 1⟩] := by
  rw [attrGaps, ATTRIBUTE_MAP]
  rw [List.filterMap_cons, attrGapEntry_exC3_none "BYOB" _ (by decide) (by decide)]
  rw [List.filterMap_cons, attrGapEntry_exC3_delivery]
  rw [List.filterMap_cons,
    attrGapEntry_exC3_none "Outdoor Seating" _ (by decide) (by decide)]
  rw [List.filterMap_cons,
    attrGapEntry_exC3_none "Kid-Friendly" _ (by decide) (by decide)]
  rw [List.filterMap_cons,
    attrGapEntry_exC3_none "Late Night" _ (by decide) (by decide)]
  rw [List.filterMap_cons,
    attrGapEntry_exC3_none "Free WiFi" _ (by decide) (by decide)]
  rw [List.filterMap_cons,
    attrGapEntry_exC3_none "Reservations" _ (by decide) (by decide)]
  rfl

/-- C3 (code bug): a query requiring delivery checks the raw key "HasTV"
against the gap list, which holds the display name "Delivery" produced by
the batch tool — so the delivery requirement is reported missing and
penalized even though the area's AttributeGap list contains the delivery
gap (the endpoint's own parameter doc says delivery requires the
"Delivery opportunity gap"). -/
theorem c3_attr_key_mismatch :
    attrGaps exC3Local exC3Nbrs = exC3Zip.attr_gaps ∧
      (processZip {} { delivery := true } exC3Zip []).map Candidate.issues =
        some ["Missing validated service gaps: HasTV"] := by
  refine ⟨attrGaps_exC3, ?_⟩
  decide

/-- If the folded scan comes back empty, nothing was eligible (and the
accumulator was empty). -/
theorem foldl_scanStep_none (f : CityCand → ℚ) (elig : CityCand → Bool) :
    ∀ (l : List CityCand) (acc : Option CityCand),
      l.foldl (scanStep f elig) acc = none →
      acc = none ∧ ∀ c ∈ l, elig c = false := by
  intro l
  induction l with
  | nil =>
    intro acc h
    exact ⟨h, by simp⟩
  | cons x xs ih =>
    intro acc h
    rw [List.foldl_cons] at h
    obtain ⟨hstep, hall⟩ := ih (scanStep f elig acc x) h
    have hx : elig x = false ∧ acc = none := by
      rw [scanStep.eq_def] at hstep
      by_cases he : elig x = true
      · rw [if_pos he] at hstep
        cases hacc : acc with
        | none =>
          rw [hacc] at hstep
          exact absurd hstep (by simp)
        | some a =>
          rw [hacc] at hstep
          simp only at hstep
          by_cases hf : f x > f a
          · rw [if_pos hf] at hstep
            exact absurd hstep (by simp)
          · rw [if_neg hf] at hstep
            exact absurd hstep (by simp)
      · exact ⟨Bool.eq_false_iff.mpr he, by rw [if_neg he] at hstep; exact hstep⟩
    refine ⟨hx.2, ?_⟩
    intro c hc
    rcases List.mem_cons.mp hc with rfl | hc'
    · exact hx.1
    · exact hall c hc'

/-- C5 counterexample: a single city-candidate from Camden County (cap 0)
is still selected by the Diversifier through the fallback, so the output
contains one Camden city although Camden's cap is 0. -/
theorem c5_counterexample :
    capOf (countyOf "08002") = 0 ∧
      (mmrSelect (fun _ _ => 0) 1
          [{ city := "Camden", score := 50, repZip := "08002" }]).countP
        (fun c => countyOf c.repZip == "Camden") = 1 := by
  constructor
  · decide
  · decide

/-- C5 (amended): the Diversifier's selection step never picks a candidate
from a county at its cap while any remaining candidate's county is under
its cap; only the fallback — taken when every remaining candidate's county
is at cap — can exceed a cap (in particular, Camden with cap 0 can then
still be selected). -/
theorem c5_cap_respected_unless_fallback (f : CityCand → ℚ)
    (counts : String → ℕ) (remaining : List CityCand) (b : CityCand)
    (h : pickCandidate f (eligibleCand counts) remaining = some b) :
    counts (countyOf b.repZip) < capOf (countyOf b.repZip) ∨
      ∀ c ∈ remaining,
        ¬ counts (countyOf c.repZip) < capOf (countyOf c.repZip) := by
  rw [pickCandidate] at h
  cases hs : scanBest f (eligibleCand counts) remaining with
  | some x =>
    rw [hs] at h
    obtain rfl := Option.some_inj.mp h
    left
    have he := scanBest_elig f (eligibleCand counts) remaining x hs
    rw [eligibleCand] at he
    exact of_decide_eq_true he
  | none =>
    right
    intro c hc
    have hall := (foldl_scanStep_none f (eligibleCand counts) remaining none hs).2
    have := hall c hc
    rw [eligibleCand] at this
    exact of_decide_eq_false this

/-- C5 witness: with zero selections so far an under-cap Burlington
candidate is picked eligibly. -/
theorem c5_cap_respected_unless_fallback_witness :
    (fun _ : String => 0)
        (countyOf ({ city := "Mount Laurel", score := 50, repZip := "08054" } :
          CityCand).repZip) <
      capOf (countyOf ({ city := "Mount Laurel", score := 50, repZip := "08054" } :
        CityCand).repZip) ∨
      ∀ c ∈ [({ city := "Mount Laurel", score := 50, repZip := "08054" } : CityCand)],
        ¬ (fun _ : String => 0) (countyOf c.repZip) < capOf (countyOf c.repZip) :=
  c5_cap_respected_unless_fallback (fun _ => 0) (fun _ => 0)
    [{ city := "Mount Laurel", score := 50, repZip := "08054" }]
    { city := "Mount Laurel", score := 50, repZip := "08054" } (by decide)

end Datathon
